import Mathlib

/-!
Verification of the RTMP chunk codec in `rtmpy/protocol/rtmp/codec.py`.

The Python module is shallowly embedded below.  Python objects become Lean
structures, in-place mutation becomes explicit state passing, and Python
exceptions become `Except` values (where Python mutates an object before an
exception escapes, the relevant mutation is either modelled explicitly in the
surrounding control flow, or noted in a comment as unreachable from the states
the theorems quantify over).  Python integers are arbitrary precision, so
counters are `Int`; byte strings are `List Nat`.

The repository imports `rtmpy.protocol.rtmp.header` (the header codec:
`decodeHeader`, `mergeHeaders`, `Header`, `HeaderError`) and
`rtmpy.protocol.rtmp.message` (`STREAMABLE_TYPES`), whose source files are not
part of the repository snapshot.  Those pieces are modelled from the
specification (sections 3, 4.1 and 6) and are marked `Modelled from the spec:`
in their doc comments.  Everything else is translated directly from
`codec.py`.
-/

set_option maxRecDepth 8000

namespace Rtmp

/-- Default number of bytes per RTMP frame, `FRAME_SIZE` in `codec.py`. -/
def FRAME_SIZE : Int := 128

/-- Maximum number of channels per RTMP stream, `MAX_CHANNELS` in `codec.py`. -/
def MAX_CHANNELS : Nat := 64

/-- Lowest channel id the muxer allocates, `MIN_CHANNEL_ID` in `codec.py`. -/
def MIN_CHANNEL_ID : Nat := 3

/-- Python exceptions raised by the codec module.  `headerError` stands for
`rtmpy.protocol.rtmp.header.HeaderError` (the specification files it under
`Protocol` errors); `ioError` is Python `IOError` (the spec's `Incomplete`);
`stopIteration` is the natural-end signal; `indexError`, `encodeError`,
`typeError` and `attributeError` are the corresponding Python exceptions. -/
inductive PyErr where
  | ioError
  | headerError
  | indexError
  | encodeError
  | typeError
  | attributeError
  | stopIteration
  deriving DecidableEq, Repr

/-- The `pyamf.util.BufferedByteStream` that the codec reads: an append-only
byte buffer with a read position. -/
structure MStream where
  data : List Nat
  pos : Nat
  deriving DecidableEq, Repr

namespace MStream

/-- Number of bytes left between the read position and the end of the
buffer. -/
def remaining (s : MStream) : Nat := s.data.length - s.pos

/-- Read `l` bytes; `IOError` when fewer than `l` bytes remain (matching
`BufferedByteStream.read`).  The codec only calls this with nonnegative `l`
on the paths the theorems cover. -/
def readN (s : MStream) (l : Int) : Except PyErr (List Nat × MStream) :=
  if l ≤ (s.remaining : Int) then
    .ok ((s.data.drop s.pos).take l.toNat, { s with pos := s.pos + l.toNat })
  else
    .error .ioError

/-- Read a single byte. -/
def read1 (s : MStream) : Except PyErr (Nat × MStream) :=
  match s.data.drop s.pos with
  | [] => .error .ioError
  | b :: _ => .ok (b, { s with pos := s.pos + 1 })

/-- Append bytes to the buffer (`BufferedByteStream.append`). -/
def append (s : MStream) (bs : List Nat) : MStream :=
  { s with data := s.data ++ bs }

/-- Whether the read position is at the end of the buffer
(`BufferedByteStream.at_eof`). -/
def atEof (s : MStream) : Bool := s.pos == s.data.length

/-- Drop the already-read prefix (`BufferedByteStream.consume`). -/
def consume (s : MStream) : MStream := { data := s.data.drop s.pos, pos := 0 }

end MStream

/-- Modelled from the spec: the RTMP chunk header (spec section 3).  Fields
other than `channelId` are optional because the compressed wire formats omit
them; `relative` tags a header whose absent fields must be inherited from the
prior header on the same channel. -/
structure Header where
  channelId : Nat
  timestamp : Option Int
  datatype : Option Nat
  bodyLength : Option Int
  streamId : Option Nat
  relative : Bool
  deriving DecidableEq, Repr

/-- Modelled from the spec: `header.mergeHeaders(old, new)` (spec section 3
merge rule).  For each of timestamp, datatype, bodyLength and streamId the
incoming value wins when present, otherwise the prior header's value is
inherited; the merged timestamp is the prior timestamp plus the incoming
delta (the incoming relative forms carry deltas only); the merged header is
absolute. -/
def mergeHeaders (old new : Header) : Header :=
  { channelId := new.channelId
    timestamp :=
      match new.timestamp with
      | some d => some (old.timestamp.getD 0 + d)
      | none => old.timestamp
    datatype := new.datatype <|> old.datatype
    bodyLength := new.bodyLength <|> old.bodyLength
    streamId := new.streamId <|> old.streamId
    relative := false }

/-- Modelled from the spec: `message.STREAMABLE_TYPES`, the streamable set
(audio `0x08`, video `0x09`; spec section 6). -/
def STREAMABLE_TYPES : List Nat := [8, 9]

/-- Whether a (possibly absent) datatype is in the streamable set.  In Python
`None in STREAMABLE_TYPES` is simply false. -/
def isStreamable (d : Option Nat) : Bool :=
  match d with
  | some dt => STREAMABLE_TYPES.contains dt
  | none => false

/-- Read a 3-byte big-endian integer. -/
def read3BE (s : MStream) : Except PyErr (Nat × MStream) := do
  let (b0, s) ← s.read1
  let (b1, s) ← s.read1
  let (b2, s) ← s.read1
  pure (b0 * 65536 + b1 * 256 + b2, s)

/-- Read a 4-byte big-endian integer. -/
def read4BE (s : MStream) : Except PyErr (Nat × MStream) := do
  let (b0, s) ← s.read1
  let (b1, s) ← s.read1
  let (b2, s) ← s.read1
  let (b3, s) ← s.read1
  pure (((b0 * 256 + b1) * 256 + b2) * 256 + b3, s)

/-- Read a 4-byte little-endian integer. -/
def read4LE (s : MStream) : Except PyErr (Nat × MStream) := do
  let (b0, s) ← s.read1
  let (b1, s) ← s.read1
  let (b2, s) ← s.read1
  let (b3, s) ← s.read1
  pure (b0 + b1 * 256 + b2 * 65536 + b3 * 16777216, s)

/-- Resolve a 3-byte timestamp field: when it equals `0xFFFFFF` an extended
32-bit big-endian timestamp follows the fixed header portion (spec
section 6). -/
def resolveTimestamp (ts : Nat) (s : MStream) : Except PyErr (Nat × MStream) :=
  if ts = 16777215 then read4BE s else pure (ts, s)

/-- Modelled from the spec: `header.decodeHeader` (spec sections 4.1 and 6).
The leading byte's high two bits select the format (0 full, 1 delta with type
and length, 2 pure delta, 3 continuation); its low six bits carry the channel
id, with escapes 0 and 1 meaning the id is `64` plus one following byte,
respectively `64` plus two following little-endian bytes.  Formats 1-3 yield
relative headers.  Insufficient bytes raise `IOError` (the spec's
`Incomplete`; the caller rewinds the stream). -/
def decodeHeader (s : MStream) : Except PyErr (Header × MStream) := do
  let (b0, s) ← s.read1
  let format := b0 / 64
  let cidRaw := b0 % 64
  let (cid, s) ←
    if cidRaw = 0 then do
      let (b, s) ← s.read1
      pure (64 + b, s)
    else if cidRaw = 1 then do
      let (b1, s) ← s.read1
      let (b2, s) ← s.read1
      pure (64 + b1 + b2 * 256, s)
    else
      pure (cidRaw, s)
  match format with
  | 0 => do
    let (ts, s) ← read3BE s
    let (len, s) ← read3BE s
    let (dt, s) ← s.read1
    let (sid, s) ← read4LE s
    let (ts, s) ← resolveTimestamp ts s
    pure ({ channelId := cid, timestamp := some (ts : Int),
            datatype := some dt, bodyLength := some (len : Int),
            streamId := some sid, relative := false }, s)
  | 1 => do
    let (ts, s) ← read3BE s
    let (len, s) ← read3BE s
    let (dt, s) ← s.read1
    let (ts, s) ← resolveTimestamp ts s
    pure ({ channelId := cid, timestamp := some (ts : Int),
            datatype := some dt, bodyLength := some (len : Int),
            streamId := none, relative := true }, s)
  | 2 => do
    let (ts, s) ← read3BE s
    let (ts, s) ← resolveTimestamp ts s
    pure ({ channelId := cid, timestamp := some (ts : Int),
            datatype := none, bodyLength := none,
            streamId := none, relative := true }, s)
  | _ =>
    pure ({ channelId := cid, timestamp := none,
            datatype := none, bodyLength := none,
            streamId := none, relative := true }, s)

/-- Per-channel cursor, the `Channel` class of `codec.py`.  The Python object
keeps references to its codec and the shared input stream; here the stream is
passed explicitly to `readFrame` and `frameSize` is the copy the object holds
(updated by `Codec.setFrameSize`). -/
structure Channel where
  channelId : Nat
  header : Option Header
  bytes : Int
  bodyRemaining : Option Int
  frameRemaining : Int
  frameSize : Int
  deriving DecidableEq, Repr

namespace Channel

/-- The `Channel.reset` method: zero `bytes`, clear `bodyRemaining` (Python
sets it to `None`), restore `frameRemaining` to the channel's frame size.
Note that the header is left in place. -/
def reset (c : Channel) : Channel :=
  { c with bytes := 0, bodyRemaining := none, frameRemaining := c.frameSize }

/-- The `Channel.setHeader` method.  A relative header on a channel with no
prior header raises `HeaderError`; otherwise the header (merged when
relative) is stored and `bodyRemaining` becomes `bodyLength - bytes`.  When
the stored header has no `bodyLength` that subtraction is a Python
`TypeError` (in Python the header assignment precedes the failure; no state
the theorems quantify over reaches this case, because every absolute header
produced by the codec carries a body length). -/
def setHeader (c : Channel) (new : Header) : Except PyErr Channel :=
  match c.header, new.relative with
  | none, true => .error .headerError
  | some old, true =>
    match (mergeHeaders old new).bodyLength with
    | none => .error .typeError
    | some bl =>
      .ok { c with header := some (mergeHeaders old new),
                   bodyRemaining := some (bl - c.bytes) }
  | _, false =>
    match new.bodyLength with
    | none => .error .typeError
    | some bl => .ok { c with header := some new, bodyRemaining := some (bl - c.bytes) }

end Channel

/-- Fuel-indexed rendering of the Python loop `while l >= size: l -= size`
inside `Channel._adjustFrameRemaining`.  When `0 < size` the loop runs at
most `l.toNat` times, so that much fuel is exact. -/
def adjustLoopAux (size : Int) : Nat → Int → Int
  | 0, l => l
  | fuel + 1, l => if size ≤ l then adjustLoopAux size fuel (l - size) else l

/-- The loop `while l >= size: l -= size`.  For `size ≤ 0 ∧ size ≤ l` the
Python loop never terminates; no reachable call has a nonpositive frame size,
and the guard below returns `l` there so the definition stays total. -/
def adjustLoop (l size : Int) : Int :=
  if 0 < size then adjustLoopAux size l.toNat l else l

/-- The `Channel._adjustFrameRemaining` method: reduce the consumed length
modulo the frame size (the `while` loop), then either close the current
frame -- Python's `if l >= self.frameRemaining` branch sets the countdown to
the frame size and the trailing `self.frameRemaining -= l` removes the
overshoot -- or just decrease the countdown. -/
def Channel.adjustFrameRemaining (c : Channel) (l : Int) : Channel :=
  if c.frameRemaining ≤ adjustLoop l c.frameSize then
    { c with frameRemaining := c.frameSize - (adjustLoop l c.frameSize - c.frameRemaining) }
  else
    { c with frameRemaining := c.frameRemaining - adjustLoop l c.frameSize }

/-- The `Channel.readFrame` method: read
`min(frameRemaining, frameSize, bodyRemaining)` bytes from the input stream,
advance `bytes`, decrease `bodyRemaining`, then adjust `frameRemaining`.
Python evaluates that `min` with `bodyRemaining = None` only on an idle
channel (yielding `None` and an eventual `TypeError`); no path the theorems
cover reads an idle channel, and the embedding reports the `TypeError`
directly. -/
def Channel.readFrame (c : Channel) (s : MStream) :
    Except PyErr (List Nat × Channel × MStream) :=
  match c.bodyRemaining with
  | none => .error .typeError
  | some br =>
    match s.readN (min (min c.frameRemaining c.frameSize) br) with
    | .error e => .error e
    | .ok (bs, s') =>
      .ok (bs,
        Channel.adjustFrameRemaining
          { c with bytes := c.bytes + min (min c.frameRemaining c.frameSize) br,
                   bodyRemaining := some (br - min (min c.frameRemaining c.frameSize) br) }
          (min (min c.frameRemaining c.frameSize) br),
        s')

/-- The `Channel.complete` property: `not self.bodyRemaining`, true when
`bodyRemaining` is `None` or `0`. -/
def Channel.complete (c : Channel) : Bool :=
  match c.bodyRemaining with
  | none => true
  | some br => br == 0

/-- State of the `Codec` class: the shared input stream, the channel map and
the current frame size. -/
structure Codec where
  stream : MStream
  channels : Nat → Option Channel
  frameSize : Int

/-- A fresh `Codec` (empty stream, no channels, default frame size). -/
def Codec.init : Codec :=
  { stream := { data := [], pos := 0 }, channels := fun _ => none,
    frameSize := FRAME_SIZE }

/-- A freshly constructed `Channel(channelId, codec, stream)`: no header and
reset counters, with the codec's current frame size. -/
def newChannel (cid : Nat) (fs : Int) : Channel :=
  { channelId := cid, header := none, bytes := 0, bodyRemaining := none,
    frameRemaining := fs, frameSize := fs }

/-- Store an updated channel object back in the map (Python mutates the
object in place; the map key is its id). -/
def Codec.setChannel (s : Codec) (cid : Nat) (c : Channel) : Codec :=
  { s with channels := fun i => if i = cid then some c else s.channels i }

/-- The `Codec.getChannel` method: return the existing channel, raise
`IndexError` when a missing `channelId` exceeds `MAX_CHANNELS`, otherwise
create and store a fresh channel. -/
def Codec.getChannel (s : Codec) (cid : Nat) : Except PyErr (Channel × Codec) :=
  match s.channels cid with
  | some c => .ok (c, s)
  | none =>
    if cid > MAX_CHANNELS then .error .indexError
    else
      let c := newChannel cid s.frameSize
      .ok (c, s.setChannel cid c)

/-- The `Codec.setFrameSize` method: set the codec's frame size and each
existing channel's copy of it. -/
def Codec.setFrameSize (s : Codec) (size : Int) : Codec :=
  { s with frameSize := size,
           channels := fun i => (s.channels i).map fun c => { c with frameSize := size } }

/-- The `except IOError` clause of `FrameReader.next`: seek back to the
snapshot position; at end of buffer, consume it and raise `StopIteration`,
otherwise re-raise the `IOError`. -/
def Codec.ioRecover (s : Codec) (pos : Nat) :
    Except PyErr (List Nat × Bool × Option Header) × Codec :=
  if ({ s.stream with pos := pos } : MStream).atEof then
    (.error .stopIteration,
      { s with stream := ({ s.stream with pos := pos } : MStream).consume })
  else
    (.error .ioError, { s with stream := { s.stream with pos := pos } })

/-- The `FrameReader.next` method: snapshot the position, decode a header,
fetch or create the channel, apply the header, read one frame, reset the
channel when it completed, and return the frame bytes, the completion flag
and the channel's stored header.  `IOError` from the header decode or the
frame read rewinds the stream (channel mutations made by `setHeader` are
kept, as in Python); `HeaderError` and `IndexError` propagate. -/
def FrameReader.next (s : Codec) :
    Except PyErr (List Nat × Bool × Option Header) × Codec :=
  match decodeHeader s.stream with
  | .error e =>
    if e = .ioError then s.ioRecover s.stream.pos else (.error e, s)
  | .ok (h, st1) =>
    match Codec.getChannel { s with stream := st1 } h.channelId with
    | .error e => (.error e, { s with stream := st1 })
    | .ok (c, s2) =>
      match c.setHeader h with
      | .error e => (.error e, s2)
      | .ok c1 =>
        match c1.readFrame st1 with
        | .error e =>
          if e = .ioError then (s2.setChannel h.channelId c1).ioRecover s.stream.pos
          else (.error e, s2.setChannel h.channelId c1)
        | .ok (bs, c2, st2) =>
          if c2.complete then
            (.ok (bs, c2.reset.complete, c2.reset.header),
              { (s2.setChannel h.channelId c1).setChannel h.channelId c2.reset with
                  stream := st2 })
          else
            (.ok (bs, c2.complete, c2.header),
              { (s2.setChannel h.channelId c1).setChannel h.channelId c2 with
                  stream := st2 })

/-- The `FrameReader.send` method: append data to the input stream. -/
def FrameReader.push (s : Codec) (bs : List Nat) : Codec :=
  { s with stream := s.stream.append bs }

/-- State of the `ChannelDemuxer` class: a `FrameReader` plus the `bucket`
of buffered per-channel data. -/
structure Demuxer where
  core : Codec
  bucket : Nat → Option (List Nat)

/-- A fresh `ChannelDemuxer`. -/
def Demuxer.init : Demuxer := { core := Codec.init, bucket := fun _ => none }

/-- The `ChannelDemuxer.next` method: read one frame; streamable datatypes
pass straight through; otherwise a completing frame is spliced with the
channel's accumulator (which is popped), and a non-completing frame is
appended to the accumulator with nothing emitted (`None, None` in Python,
here `none`).  Reading the datatype off a `None` header would be a Python
`AttributeError`; `FrameReader.next` never yields a successful result with
no stored header. -/
def ChannelDemuxer.next (s : Demuxer) :
    Except PyErr (Option (List Nat × Header)) × Demuxer :=
  match FrameReader.next s.core with
  | (.error e, core') => (.error e, { s with core := core' })
  | (.ok (data, complete, mh), core') =>
    match mh with
    | none => (.error .attributeError, { s with core := core' })
    | some meta =>
      if isStreamable meta.datatype then
        (.ok (some (data, meta)), { s with core := core' })
      else if complete then
        (.ok (some ((s.bucket meta.channelId).getD [] ++ data, meta)),
          { core := core',
            bucket := fun i => if i = meta.channelId then none else s.bucket i })
      else
        (.ok none,
          { core := core',
            bucket := fun i =>
              if i = meta.channelId then some ((s.bucket meta.channelId).getD [] ++ data)
              else s.bucket i })

/-- State of the `Decoder` class.  The injected collaborators are modelled
from the spec (section 6): `streams` maps a stream id to the timestamp of
the stream object `stream_factory.getStream` resolves for it (every id
resolves to one stream, created with timestamp 0), `getStreamCalls` records
the factory calls, and `dispatched` records each
`dispatcher.dispatchMessage(stream, datatype, timestamp, data)` call as
`(streamId, datatype, timestamp, data)`. -/
structure Decoder where
  demux : Demuxer
  streams : Nat → Int
  getStreamCalls : List Nat
  dispatched : List (Nat × Option Nat × Int × List Nat)

/-- A fresh `Decoder`. -/
def Decoder.init : Decoder :=
  { demux := Demuxer.init, streams := fun _ => 0, getStreamCalls := [],
    dispatched := [] }

/-- The `Decoder.next` method: pull one demuxed message; when none is
available return silently; otherwise resolve the stream from the header's
stream id, add the header timestamp to the stream's timestamp, and dispatch
the message.  A header with no stream id or no timestamp would make Python
fail in the factory call respectively with a `TypeError` on
`stream.timestamp += None`; decoded complete messages always carry both. -/
def Decoder.next (s : Decoder) : Except PyErr Unit × Decoder :=
  match ChannelDemuxer.next s.demux with
  | (.error e, d') => (.error e, { s with demux := d' })
  | (.ok none, d') => (.ok (), { s with demux := d' })
  | (.ok (some (data, meta)), d') =>
    match meta.streamId with
    | none => (.error .typeError, { s with demux := d' })
    | some sid =>
      match meta.timestamp with
      | none =>
        (.error .typeError,
          { s with demux := d', getStreamCalls := s.getStreamCalls ++ [sid] })
      | some delta =>
        (.ok (),
          { s with
              demux := d',
              getStreamCalls := s.getStreamCalls ++ [sid],
              streams := fun i => if i = sid then s.streams sid + delta else s.streams i,
              dispatched :=
                s.dispatched ++ [(sid, meta.datatype, s.streams sid + delta, data)] })

/-- State of the `ChannelMuxer` class.  Python keys `activeChannels` and
`activeChannelsIndex` by `Channel` objects; since the channel map stores
exactly one object per id, both are keyed here by channel id
(`activeChannelsIndex` is an association list mirroring the dict). -/
structure Muxer where
  core : Codec
  availableChannels : List Nat
  activeChannels : List Nat
  activeChannelsIndex : List (Nat × Nat)
  channelsInUse : Int

/-- Look up a recorded index in `activeChannelsIndex`. -/
def lookupIdx (l : List (Nat × Nat)) (cid : Nat) : Option Nat :=
  (l.find? fun p => p.1 == cid).map Prod.snd

/-- Record an index in `activeChannelsIndex` (dict assignment overwrites). -/
def setIdx (l : List (Nat × Nat)) (cid idx : Nat) : List (Nat × Nat) :=
  (cid, idx) :: l.filter fun p => p.1 ≠ cid

/-- Remove an entry from `activeChannelsIndex` (`dict.pop`). -/
def removeIdx (l : List (Nat × Nat)) (cid : Nat) : List (Nat × Nat) :=
  l.filter fun p => p.1 ≠ cid

/-- A fresh `ChannelMuxer`: the free deque holds
`xrange(MIN_CHANNEL_ID, MAX_CHANNELS)`, i.e. ids 3 through 63. -/
def Muxer.init : Muxer :=
  { core := Codec.init
    availableChannels := List.range' MIN_CHANNEL_ID (MAX_CHANNELS - MIN_CHANNEL_ID)
    activeChannels := []
    activeChannelsIndex := []
    channelsInUse := 0 }

/-- The computed `_maxChannels` attribute: `MAX_CHANNELS - minChannelId`
(the constructor fixes `minChannelId = MIN_CHANNEL_ID` and nothing in the
module changes it afterwards). -/
def Muxer.maxChannels : Int := ((MAX_CHANNELS - MIN_CHANNEL_ID : Nat) : Int)

/-- The `ChannelMuxer.aquireChannel` method: pop the front of the free
deque (`none` when empty, signalling saturation), bump the in-use count,
fetch or create the channel and append it to the active list, recording its
index.  Python increments the count before the `getChannel` call; that call
cannot fail for a pooled id (all are at most 63), so the embedding applies
both effects in the success branch. -/
def Muxer.aquireChannel (s : Muxer) : Except PyErr (Option Nat × Muxer) :=
  match s.availableChannels with
  | [] => .ok (none, s)
  | cid :: rest =>
    match s.core.getChannel cid with
    | .error e => .error e
    | .ok (_, core') =>
      .ok (some cid,
        { s with core := core', availableChannels := rest,
                 channelsInUse := s.channelsInUse + 1,
                 activeChannels := s.activeChannels ++ [cid],
                 activeChannelsIndex :=
                   setIdx s.activeChannelsIndex cid ((s.activeChannels ++ [cid]).length - 1) })

/-- The `ChannelMuxer.releaseChannel` method: fetch the channel, pop its
recorded index (`EncodeError` when it is not active), delete that position
from the active list (`IndexError` when the recorded index is stale and out
of range, as Python's `del` would raise), push the id back onto the front of
the free deque and decrement the in-use count.  Python keeps the mutations
made before an exception escapes; no claim depends on the state those
failing paths leave behind. -/
def Muxer.releaseChannel (s : Muxer) (cid : Nat) : Except PyErr Muxer :=
  match s.core.getChannel cid with
  | .error e => .error e
  | .ok (_, core') =>
    match lookupIdx s.activeChannelsIndex cid with
    | none => .error .encodeError
    | some idx =>
      if idx < s.activeChannels.length then
        .ok { s with core := core',
                     activeChannelsIndex := removeIdx s.activeChannelsIndex cid,
                     activeChannels := s.activeChannels.eraseIdx idx,
                     availableChannels := cid :: s.availableChannels,
                     channelsInUse := s.channelsInUse - 1 }
      else .error .indexError

/-- The `ChannelMuxer.isFull` method. -/
def Muxer.isFull (s : Muxer) : Bool := s.channelsInUse == Muxer.maxChannels

/-- The `ChannelMuxer.send` method: acquire a channel (`EncodeError` when
the pool is exhausted), build the absolute header describing the message and
apply it to the channel. -/
def Muxer.send (s : Muxer) (data : List Nat) (datatype : Nat) (streamId : Nat)
    (timestamp : Int) : Except PyErr Muxer :=
  match s.aquireChannel with
  | .error e => .error e
  | .ok (none, _) => .error .encodeError
  | .ok (some cid, s1) =>
    let h : Header :=
      { channelId := cid, timestamp := some timestamp, datatype := some datatype,
        bodyLength := some ((data.length : Nat) : Int), streamId := some streamId,
        relative := false }
    match s1.core.channels cid with
    | none => .error .attributeError
    | some c =>
      match c.setHeader h with
      | .error e => .error e
      | .ok c' => .ok { s1 with core := s1.core.setChannel cid c' }

/-- The `ChannelMuxer.next` method.  Its body calls `self.writeHeader(channel)`
and `channel.writeFrame()`; neither method is defined anywhere in the
repository, so the first iteration over a non-empty active list raises
`AttributeError`.  With no active channel the loop body never runs and the
method returns normally. -/
def Muxer.mnext (s : Muxer) : Except PyErr Muxer :=
  match s.activeChannels with
  | [] => .ok s
  | _ :: _ => .error .attributeError

/-- State of the `Encoder` class: the muxer plus the pending FIFO of
`(streamId, datatype, timestamp, data)` tuples. -/
structure Encoder where
  mux : Muxer
  pending : List (Nat × Nat × Int × List Nat)

/-- A fresh `Encoder`. -/
def Encoder.init : Encoder := { mux := Muxer.init, pending := [] }

/-- The `Encoder.send` method: when the muxer is full, append the message to
the pending FIFO; otherwise delegate to `ChannelMuxer.send`. -/
def Encoder.send (s : Encoder) (data : List Nat) (datatype : Nat) (streamId : Nat)
    (timestamp : Int) : Except PyErr Encoder :=
  if s.mux.isFull then
    .ok { s with pending := s.pending ++ [(streamId, datatype, timestamp, data)] }
  else
    match s.mux.send data datatype streamId timestamp with
    | .error e => .error e
    | .ok m' => .ok { s with mux := m' }

/-- The `Encoder.next` method: pump the muxer, then with an empty pending
queue raise `StopIteration` when nothing is active; otherwise drain the
pending queue while the muxer accepts.  The drain loop executes
`ChannelMuxer.send(*self.pending.pop(0))`: an unbound method call with no
instance argument, whose popped tuple `(streamId, datatype, timestamp, data)`
is also ordered wrongly for `send(self, data, datatype, streamId, timestamp)`
-- in Python 2 this raises `TypeError` on its first iteration. -/
def Encoder.enext (s : Encoder) : Except PyErr Encoder :=
  match s.mux.mnext with
  | .error e => .error e
  | .ok m' =>
    if s.pending.isEmpty then
      if m'.activeChannels.isEmpty then .error .stopIteration
      else .ok { s with mux := m' }
    else
      if m'.isFull then .ok { s with mux := m' } else .error .typeError

/-! Helper lemmas shared by the claim theorems. -/

instance {ε α : Type} [DecidableEq ε] [DecidableEq α] : DecidableEq (Except ε α) :=
  fun x y =>
    match x, y with
    | .ok a, .ok b => if h : a = b then .isTrue (by rw [h]) else .isFalse (by simp [h])
    | .error a, .error b => if h : a = b then .isTrue (by rw [h]) else .isFalse (by simp [h])
    | .ok _, .error _ => .isFalse (by simp)
    | .error _, .ok _ => .isFalse (by simp)

theorem adjustLoopAux_of_lt {size : Int} (fuel : Nat) {l : Int} (h : l < size) :
    adjustLoopAux size fuel l = l := by
  cases fuel <;> simp [adjustLoopAux, not_le.mpr h]

theorem adjustLoop_of_lt {l size : Int} (h : l < size) : adjustLoop l size = l := by
  unfold adjustLoop
  split
  · exact adjustLoopAux_of_lt _ h
  · rfl

theorem adjustLoopAux_zero {size : Int} (fuel : Nat) (h : 0 < size) :
    adjustLoopAux size fuel 0 = 0 := by
  cases fuel <;> simp [adjustLoopAux, not_le.mpr h]

theorem adjustLoop_self {size : Int} (h : 0 < size) : adjustLoop size size = 0 := by
  unfold adjustLoop
  rw [if_pos h]
  obtain ⟨k, hk⟩ : ∃ k, size.toNat = k + 1 := ⟨size.toNat - 1, by omega⟩
  rw [hk]
  simp only [adjustLoopAux, le_refl, if_pos, sub_self]
  exact adjustLoopAux_zero k h

/-- Behaviour of `_adjustFrameRemaining` on a consumed length that fits in
the current frame, under the channel invariants: reaching the frame boundary
restores the countdown to the frame size, otherwise the countdown just
decreases. -/
theorem adjustFrameRemaining_eq (c : Channel) (n : Int)
    (hfr0 : 0 < c.frameRemaining) (hfr1 : c.frameRemaining ≤ c.frameSize)
    (hn0 : 0 ≤ n) (hle : n ≤ c.frameRemaining) :
    c.adjustFrameRemaining n =
      { c with frameRemaining :=
          if n = c.frameRemaining then c.frameSize else c.frameRemaining - n } := by
  unfold Channel.adjustFrameRemaining
  rcases lt_or_eq_of_le (le_trans hle hfr1) with hlt | heq
  · rw [adjustLoop_of_lt hlt]
    by_cases hb : n = c.frameRemaining
    · rw [if_pos (le_of_eq hb.symm), if_pos hb]
      congr 1
      omega
    · rw [if_neg (by omega), if_neg hb]
  · rw [heq, adjustLoop_self (lt_of_lt_of_le hfr0 hfr1)]
    rw [if_neg (by omega), if_pos (by omega)]
    congr 1
    omega

/-- Fields of a channel untouched by `_adjustFrameRemaining`. -/
theorem adjustFrameRemaining_fields (c : Channel) (l : Int) :
    (c.adjustFrameRemaining l).header = c.header ∧
    (c.adjustFrameRemaining l).bytes = c.bytes ∧
    (c.adjustFrameRemaining l).bodyRemaining = c.bodyRemaining ∧
    (c.adjustFrameRemaining l).frameSize = c.frameSize ∧
    (c.adjustFrameRemaining l).channelId = c.channelId := by
  unfold Channel.adjustFrameRemaining
  split <;> simp

/-- Successful `readFrame`, unfolded: the read length is
`min(frameRemaining, frameSize, bodyRemaining)`. -/
theorem readFrame_ok (c : Channel) (st : MStream) (br : Int)
    (hbr : c.bodyRemaining = some br)
    (havail : min (min c.frameRemaining c.frameSize) br ≤ (st.remaining : Int)) :
    c.readFrame st =
      .ok ((st.data.drop st.pos).take (min (min c.frameRemaining c.frameSize) br).toNat,
        Channel.adjustFrameRemaining
          { c with bytes := c.bytes + min (min c.frameRemaining c.frameSize) br,
                   bodyRemaining := some (br - min (min c.frameRemaining c.frameSize) br) }
          (min (min c.frameRemaining c.frameSize) br),
        { st with pos := st.pos + (min (min c.frameRemaining c.frameSize) br).toNat }) := by
  unfold Channel.readFrame MStream.readN
  rw [hbr]
  simp only [if_pos havail]

/-- Successful `setHeader` always stores an absolute header with a body
length and recomputes `bodyRemaining` from it, leaving the counters and the
frame bookkeeping alone. -/
theorem setHeader_ok_shape (c : Channel) (h : Header) (c' : Channel)
    (hok : c.setHeader h = .ok c') :
    ∃ hd bl, c'.header = some hd ∧ hd.bodyLength = some bl ∧
      c'.bodyRemaining = some (bl - c.bytes) ∧ c'.bytes = c.bytes ∧
      c'.frameRemaining = c.frameRemaining ∧ c'.frameSize = c.frameSize ∧
      c'.channelId = c.channelId := by
  unfold Channel.setHeader at hok
  split at hok
  · simp at hok
  · split at hok
    · simp at hok
    · injection hok with h2
      subst h2
      refine ⟨_, _, rfl, ?_, rfl, rfl, rfl, rfl, rfl⟩
      assumption
  · split at hok
    · simp at hok
    · injection hok with h2
      subst h2
      refine ⟨_, _, rfl, ?_, rfl, rfl, rfl, rfl, rfl⟩
      assumption

/-- A non-relative header with a body length is always accepted. -/
theorem setHeader_nonrel_ok (c : Channel) (h : Header)
    (hrel : h.relative = false) (hbl : h.bodyLength.isSome = true) :
    (c.setHeader h).isOk = true := by
  unfold Channel.setHeader
  obtain ⟨bl, hbl'⟩ := Option.isSome_iff_exists.mp hbl
  rcases hh : c.header with _ | old <;> rw [hrel, hbl'] <;> rfl

/-- A relative header is accepted whenever a prior header with a body length
is in place. -/
theorem setHeader_rel_prior_ok (c : Channel) (h : Header) (old : Header)
    (hc : c.header = some old) (hrel : h.relative = true)
    (hbl : old.bodyLength.isSome = true) :
    (c.setHeader h).isOk = true := by
  unfold Channel.setHeader
  rw [hc, hrel]
  have hsome : (mergeHeaders old h).bodyLength.isSome = true := by
    unfold mergeHeaders
    rcases h.bodyLength with _ | bl
    · simpa using hbl
    · simp
  obtain ⟨bl, hbl'⟩ := Option.isSome_iff_exists.mp hsome
  simp only [hbl']
  rfl

/-- Fields of a channel untouched by a successful `readFrame`. -/
theorem readFrame_ok_fields (c : Channel) (st : MStream) (bs : List Nat)
    (c' : Channel) (st' : MStream) (hok : c.readFrame st = .ok (bs, c', st')) :
    c'.header = c.header ∧ c'.frameSize = c.frameSize ∧ c'.channelId = c.channelId := by
  unfold Channel.readFrame at hok
  split at hok
  · simp at hok
  · split at hok
    · simp at hok
    · injection hok with h2
      injection h2 with hA hB
      injection hB with hB1 hB2
      subst hB1
      obtain ⟨h1, -, -, h4, h5⟩ := adjustFrameRemaining_fields _ _
      exact ⟨h1, h4, h5⟩

/-! Claim theorems. -/

/-- C1: on a channel whose header is absent, `setHeader` with a relative
header fails with the protocol error (`HeaderError`; the exception is raised
before any mutation, so the header stays absent), while a non-relative
header, or a relative header when a prior absolute header exists, is
accepted.  The well-formedness premise that the governing absolute header
carries a body length reflects the spec's data model, where `bodyLength` is
a mandatory field of an absolute header. -/
theorem C1_setHeader_fresh_relative (c : Channel) (h : Header) :
    (c.header = none → h.relative = true → c.setHeader h = .error .headerError) ∧
    (h.relative = false → h.bodyLength.isSome = true → (c.setHeader h).isOk = true) ∧
    (∀ old : Header, c.header = some old → h.relative = true →
      old.bodyLength.isSome = true → (c.setHeader h).isOk = true) := by
  refine ⟨fun hc hrel => ?_, fun hrel hbl => setHeader_nonrel_ok c h hrel hbl,
    fun old hc hrel hbl => setHeader_rel_prior_ok c h old hc hrel hbl⟩
  unfold Channel.setHeader
  rw [hc, hrel]

/-- Witness for C1 at concrete inputs: a fresh channel rejects a relative
header, accepts an absolute one, and a channel with a prior absolute header
accepts a relative header. -/
theorem C1_setHeader_fresh_relative_witness :
    ((newChannel 3 128).setHeader
        { channelId := 3, timestamp := some 1, datatype := none, bodyLength := none,
          streamId := none, relative := true } = .error .headerError) ∧
    (((newChannel 3 128).setHeader
        { channelId := 3, timestamp := some 0, datatype := some 20, bodyLength := some 50,
          streamId := some 1, relative := false }).isOk = true) ∧
    ((({ newChannel 3 128 with
          header := some { channelId := 3, timestamp := some 0, datatype := some 20,
                           bodyLength := some 50, streamId := some 1, relative := false } }
        : Channel).setHeader
        { channelId := 3, timestamp := some 1, datatype := none, bodyLength := none,
          streamId := none, relative := true }).isOk = true) := by
  refine ⟨(C1_setHeader_fresh_relative _ _).1 rfl rfl,
    (C1_setHeader_fresh_relative _ _).2.1 rfl rfl,
    (C1_setHeader_fresh_relative _ _).2.2 _ rfl rfl rfl⟩

/-- C2: on an active channel satisfying the invariants, `readFrame` reads
exactly `n = min(frameRemaining, frameSize, bodyRemaining)` bytes from the
stream position, advances `bytes` by `n`, decreases `bodyRemaining` by `n`,
and sets `frameRemaining` to `frameSize` when the read ended exactly at the
frame boundary, otherwise decreases it by `n`; the invariant
`0 < frameRemaining ≤ frameSize` is preserved. -/
theorem C2_readFrame_counters (c : Channel) (st : MStream) (hd : Header) (br n : Int)
    (hh : c.header = some hd) (hbr : c.bodyRemaining = some br) (hbr0 : 0 ≤ br)
    (hfr0 : 0 < c.frameRemaining) (hfr1 : c.frameRemaining ≤ c.frameSize)
    (hn : n = min (min c.frameRemaining c.frameSize) br)
    (havail : n ≤ (st.remaining : Int)) :
    c.readFrame st =
      .ok ((st.data.drop st.pos).take n.toNat,
        { c with bytes := c.bytes + n, bodyRemaining := some (br - n),
                 frameRemaining :=
                   if n = c.frameRemaining then c.frameSize else c.frameRemaining - n },
        { st with pos := st.pos + n.toNat }) ∧
    ((st.data.drop st.pos).take n.toNat).length = n.toNat ∧
    (0 < if n = c.frameRemaining then c.frameSize else c.frameRemaining - n) ∧
    ((if n = c.frameRemaining then c.frameSize else c.frameRemaining - n) ≤ c.frameSize) := by
  have hn0 : 0 ≤ n := by
    rw [hn]
    exact le_min (le_min (le_of_lt hfr0) (by omega)) hbr0
  have hle : n ≤ c.frameRemaining := by rw [hn]; exact le_trans (min_le_left _ _) (min_le_left _ _)
  have hmain := readFrame_ok c st br hbr (hn ▸ havail)
  rw [← hn] at hmain
  have hadj := adjustFrameRemaining_eq
    { c with bytes := c.bytes + n, bodyRemaining := some (br - n) } n hfr0 hfr1 hn0 hle
  rw [hadj] at hmain
  refine ⟨hmain, ?_, ?_, ?_⟩
  · have : n.toNat ≤ (st.data.drop st.pos).length := by
      rw [List.length_drop]
      unfold MStream.remaining at havail
      omega
    rw [List.length_take]
    omega
  · by_cases hb : n = c.frameRemaining <;> simp [hb] <;> omega
  · by_cases hb : n = c.frameRemaining <;> simp [hb] <;> omega

/-- Witness for C2: a fresh channel with a 50-byte body and frame size 128
reads all 50 bytes in one frame. -/
theorem C2_readFrame_counters_witness :
    ({ newChannel 3 128 with
        header := some { channelId := 3, timestamp := some 0, datatype := some 20,
                         bodyLength := some 50, streamId := some 1, relative := false },
        bodyRemaining := some 50 } : Channel).readFrame
      { data := List.replicate 60 9, pos := 0 } =
      .ok (List.replicate 50 9,
        { channelId := 3,
          header := some { channelId := 3, timestamp := some 0, datatype := some 20,
                           bodyLength := some 50, streamId := some 1, relative := false },
          bytes := 50, bodyRemaining := some 0, frameRemaining := 78, frameSize := 128 },
        { data := List.replicate 60 9, pos := 50 }) := by
  have h := (C2_readFrame_counters
    ({ newChannel 3 128 with
        header := some { channelId := 3, timestamp := some 0, datatype := some 20,
                         bodyLength := some 50, streamId := some 1, relative := false },
        bodyRemaining := some 50 })
    { data := List.replicate 60 9, pos := 0 }
    { channelId := 3, timestamp := some 0, datatype := some 20,
      bodyLength := some 50, streamId := some 1, relative := false }
    50 50 rfl rfl (by decide) (by decide) (by decide) (by decide) (by decide)).1
  rw [h]
  decide

/-- C5: looking up a missing channel id above `MAX_CHANNELS` fails (the
`IndexError` the spec files under protocol errors), while ids in `[3, 63]`
always succeed: a missing channel is created and stored on first reference
and an existing one is returned as is. -/
theorem C5_getChannel_range (s : Codec) (cid : Nat) :
    (MAX_CHANNELS < cid → s.channels cid = none →
      s.getChannel cid = .error .indexError) ∧
    (MIN_CHANNEL_ID ≤ cid → cid ≤ 63 → s.channels cid = none →
      s.getChannel cid =
        .ok (newChannel cid s.frameSize, s.setChannel cid (newChannel cid s.frameSize)) ∧
      (s.setChannel cid (newChannel cid s.frameSize)).channels cid =
        some (newChannel cid s.frameSize)) ∧
    (MIN_CHANNEL_ID ≤ cid → cid ≤ 63 → ∀ ch, s.channels cid = some ch →
      s.getChannel cid = .ok (ch, s)) := by
  refine ⟨fun hgt hnone => ?_, fun h3 h63 hnone => ⟨?_, ?_⟩, fun h3 h63 ch hsome => ?_⟩
  · unfold Codec.getChannel
    rw [hnone]
    simp only [if_pos hgt]
  · unfold Codec.getChannel
    rw [hnone]
    have : ¬ cid > MAX_CHANNELS := by unfold MAX_CHANNELS; omega
    simp only [if_neg this]
  · unfold Codec.setChannel
    simp
  · unfold Codec.getChannel
    rw [hsome]

/-- Witness for C5: id 65 is rejected on a fresh codec, id 3 is created on
first reference and found on the second. -/
theorem C5_getChannel_range_witness :
    (Codec.init.getChannel 65 = .error .indexError) ∧
    ((Codec.init.setChannel 3 (newChannel 3 128)).channels 3 = some (newChannel 3 128)) ∧
    ((Codec.init.setChannel 3 (newChannel 3 128)).getChannel 3 =
      .ok (newChannel 3 128, Codec.init.setChannel 3 (newChannel 3 128))) := by
  refine ⟨(C5_getChannel_range Codec.init 65).1 (by decide) rfl, ?_, ?_⟩
  · exact ((C5_getChannel_range Codec.init 3).2.1 (by decide) (by decide) rfl).2
  · exact (C5_getChannel_range (Codec.init.setChannel 3 (newChannel 3 128)) 3).2.2
      (by decide) (by decide) (newChannel 3 128) (by simp [Codec.setChannel])

/-- One muxer operation: an `aquireChannel` call, or a `releaseChannel` call
that succeeds. -/
inductive MuxStep : Muxer → Muxer → Prop where
  | acquire {s s' : Muxer} (r : Option Nat)
      (h : s.aquireChannel = .ok (r, s')) : MuxStep s s'
  | release {s s' : Muxer} (cid : Nat)
      (h : s.releaseChannel cid = .ok s') : MuxStep s s'

/-- Muxer states reachable from the freshly constructed muxer by acquire and
successful release operations. -/
inductive MuxReachable : Muxer → Prop where
  | init : MuxReachable Muxer.init
  | step {s s' : Muxer} : MuxReachable s → MuxStep s s' → MuxReachable s'

/-- C4: in every reachable muxer state the pool is conserved --
`|activeChannels| + |availableChannels| = MAX_CHANNELS - MIN_CHANNEL_ID = 61`
and `|activeChannels| = channelsInUse`. -/
theorem C4_pool_conservation (s : Muxer) (h : MuxReachable s) :
    s.activeChannels.length + s.availableChannels.length = MAX_CHANNELS - MIN_CHANNEL_ID ∧
    MAX_CHANNELS - MIN_CHANNEL_ID = 61 ∧
    (s.activeChannels.length : Int) = s.channelsInUse := by
  induction h with
  | init =>
    refine ⟨?_, rfl, rfl⟩
    simp [Muxer.init]
  | @step s s' hr hstep ih =>
    obtain ⟨ih1, -, ih2⟩ := ih
    cases hstep with
    | acquire r hacq =>
      unfold Muxer.aquireChannel at hacq
      split at hacq
      · injection hacq with h2
        obtain ⟨-, rfl⟩ := Prod.mk.inj h2
        exact ⟨ih1, rfl, ih2⟩
      · rename_i cid rest hav
        split at hacq
        · simp at hacq
        · injection hacq with h2
          obtain ⟨-, rfl⟩ := Prod.mk.inj h2
          rw [hav] at ih1
          refine ⟨?_, rfl, ?_⟩ <;>
            simp only [List.length_append, List.length_cons, List.length_nil] at * <;>
            omega
    | release cid hrel =>
      unfold Muxer.releaseChannel at hrel
      split at hrel
      · simp at hrel
      · split at hrel
        · simp at hrel
        · rename_i idx hidx
          split at hrel
          · rename_i hlen
            injection hrel with h2
            subst h2
            have hlen' := List.length_eraseIdx_add_one hlen
            refine ⟨?_, rfl, ?_⟩ <;>
              simp only [List.length_cons] at * <;> omega
          · simp at hrel

/-- Witness for C4 at the initial muxer state. -/
theorem C4_pool_conservation_witness :
    Muxer.init.activeChannels.length + Muxer.init.availableChannels.length =
      MAX_CHANNELS - MIN_CHANNEL_ID ∧
    MAX_CHANNELS - MIN_CHANNEL_ID = 61 ∧
    (Muxer.init.activeChannels.length : Int) = Muxer.init.channelsInUse :=
  C4_pool_conservation Muxer.init MuxReachable.init

/-- Example input: a format-0 header for channel 3 (timestamp 0, body length
5, datatype `0x14` invoke, stream id 1) followed by the 5-byte body
`[1, 2, 3, 4, 5]`; one `FrameReader` step consumes it whole and completes
the message. -/
def exMsg5 : List Nat := [3, 0, 0, 0, 0, 0, 5, 20, 1, 0, 0, 0, 1, 2, 3, 4, 5]

/-- A fresh codec fed `exMsg5`. -/
def exCodec5 : Codec := FrameReader.push Codec.init exMsg5

/-- The absolute header carried by `exMsg5`. -/
def exHdr5 : Header :=
  { channelId := 3, timestamp := some 0, datatype := some 20,
    bodyLength := some 5, streamId := some 1, relative := false }

/-- A format-3 continuation header for channel 3: relative with no fields. -/
def exRelHdr : Header :=
  { channelId := 3, timestamp := none, datatype := none,
    bodyLength := none, streamId := none, relative := true }

/-- C3 counterexample: after the `FrameReader` step that completes the
5-byte message on channel 3 (the step reports `complete = true`), the
channel's header is NOT cleared -- `reset` zeroes the counters but leaves
`self.header` untouched -- and the next `setHeader` with a relative header
succeeds (merging against the retained header) instead of being rejected as
on a fresh channel. -/
theorem C3_counterexample :
    (FrameReader.next exCodec5).1 = .ok ([1, 2, 3, 4, 5], true, some exHdr5) ∧
    ((((FrameReader.next exCodec5).2).channels 3).getD (newChannel 0 0)).header =
      some exHdr5 ∧
    (((((FrameReader.next exCodec5).2).channels 3).getD (newChannel 0 0)).setHeader
        exRelHdr).isOk = true := by
  decide

/-- C3 amended: when a message completes during a `FrameReader` step the
channel is reset in the sense that its counters are cleared (`bytes` zeroed,
`bodyRemaining` cleared, `frameRemaining` restored to the frame size), but
its header is retained; the channel's next `setHeader` therefore does not
behave as on a fresh channel: it accepts any relative header (merging it
against the retained header) as well as any well-formed absolute header. -/
theorem C3_completion_resets_counters (s s' : Codec) (bs : List Nat) (mh : Option Header)
    (h : FrameReader.next s = (.ok (bs, true, mh), s')) :
    ∃ cid ch hd bl, s'.channels cid = some ch ∧
      mh = some hd ∧ ch.header = some hd ∧ hd.bodyLength = some bl ∧
      ch.bytes = 0 ∧ ch.bodyRemaining = none ∧ ch.frameRemaining = ch.frameSize ∧
      (∀ hr : Header, hr.relative = true → (ch.setHeader hr).isOk = true) ∧
      (∀ hr : Header, hr.relative = false → hr.bodyLength.isSome = true →
        (ch.setHeader hr).isOk = true) := by
  unfold FrameReader.next at h
  split at h
  · split at h
    · unfold Codec.ioRecover at h
      split at h <;> simp at h
    · simp at h
  · rename_i hd0 st1 hdec
    split at h
    · simp at h
    · rename_i c s2 hgc
      split at h
      · simp at h
      · rename_i c1 hsh
        split at h
        · split at h
          · unfold Codec.ioRecover at h
            split at h <;> simp at h
          · simp at h
        · rename_i bs2 c2 st2 hrf
          split at h
          · rename_i hcmp
            injection h with h1 h2
            subst h2
            injection h1 with h3
            injection h3 with h4 h5
            injection h5 with h6 h7
            obtain ⟨hd, bl, hch1, hbl, -, -, -, -, -⟩ := setHeader_ok_shape c hd0 c1 hsh
            obtain ⟨hrfh, -, -⟩ := readFrame_ok_fields c1 _ bs2 c2 st2 hrf
            have hc2h : c2.header = some hd := by rw [hrfh, hch1]
            refine ⟨hd0.channelId, c2.reset, hd, bl, ?_, ?_, ?_, hbl, rfl, rfl, rfl, ?_, ?_⟩
            · simp [Codec.setChannel]
            · rw [← h7]
              show c2.header = some hd
              exact hc2h
            · show c2.header = some hd
              exact hc2h
            · intro hr hrel
              exact setHeader_rel_prior_ok c2.reset hr hd hc2h hrel (by rw [hbl]; rfl)
            · intro hr hrel hbl2
              exact setHeader_nonrel_ok c2.reset hr hrel hbl2
          · rename_i hcmp
            injection h with h1 h2
            injection h1 with h3
            injection h3 with h4 h5
            injection h5 with h6 h7
            exact absurd h6 hcmp

/-- Witness for C3 (amended) at the concrete completing message `exMsg5`. -/
theorem C3_completion_resets_counters_witness :
    ∃ cid ch hd bl, ((FrameReader.next exCodec5).2).channels cid = some ch ∧
      (some exHdr5 : Option Header) = some hd ∧ ch.header = some hd ∧
      hd.bodyLength = some bl ∧
      ch.bytes = 0 ∧ ch.bodyRemaining = none ∧ ch.frameRemaining = ch.frameSize ∧
      (∀ hr : Header, hr.relative = true → (ch.setHeader hr).isOk = true) ∧
      (∀ hr : Header, hr.relative = false → hr.bodyLength.isSome = true →
        (ch.setHeader hr).isOk = true) :=
  C3_completion_resets_counters exCodec5 (FrameReader.next exCodec5).2
    [1, 2, 3, 4, 5] (some exHdr5) rfl

/-- Project the frame length out of a `readFrame` result. -/
def frameLenOf (r : Except PyErr (List Nat × Channel × MStream)) : Option Nat :=
  match r with
  | .ok (bs, _, _) => some bs.length
  | .error _ => none

/-- Project the error out of an `Except` result. -/
def errOf {α : Type} (r : Except PyErr α) : Option PyErr :=
  match r with
  | .error e => some e
  | .ok _ => none

/-- Iterate `readFrame`, collecting the frame lengths (stopping on error). -/
def frameRun : Nat → Channel → MStream → List Nat
  | 0, _, _ => []
  | n + 1, c, st =>
    match c.readFrame st with
    | .ok (bs, c', st') => bs.length :: frameRun n c' st'
    | .error _ => []

/-- Iterate `readFrame`, keeping the final channel state. -/
def frameRunEnd : Nat → Channel → MStream → Channel
  | 0, c, _ => c
  | n + 1, c, st =>
    match c.readFrame st with
    | .ok (_, c', st') => frameRunEnd n c' st'
    | .error _ => c

/-- The absolute header of a 500-byte message on channel 3. -/
def exHdr500 : Header :=
  { channelId := 3, timestamp := some 0, datatype := some 20,
    bodyLength := some 500, streamId := some 1, relative := false }

/-- Channel 3 in the middle of that message at frame size 128, exactly one
full 128-byte frame in -- a frame boundary. -/
def exChanMid : Channel :=
  { channelId := 3, header := some exHdr500, bytes := 128,
    bodyRemaining := some 372, frameRemaining := 128, frameSize := 128 }

/-- The codec owning `exChanMid`. -/
def exCodecMid : Codec :=
  { stream := { data := [], pos := 0 },
    channels := fun i => if i = 3 then some exChanMid else none, frameSize := 128 }

/-- An input stream holding 400 pending body bytes. -/
def exStream400 : MStream := { data := List.replicate 400 7, pos := 0 }

/-- C6 counterexample: channel 3 sits exactly at a frame boundary inside a
500-byte message at frame size 128 (one full frame read, countdown 128).
After `setFrameSize(256)` the claim says frames from the next boundary on
are governed by 256, so the next frame should carry 256 bytes; the code
reads `min(frameRemaining, frameSize, bodyRemaining) = min(128, 256, 372) =
128` bytes, because the pending countdown still counts the old frame size
down first. -/
theorem C6_counterexample :
    (exCodecMid.setFrameSize 256).frameSize = 256 ∧
    frameLenOf ((((exCodecMid.setFrameSize 256).channels 3).getD
        (newChannel 0 0)).readFrame exStream400) = some 128 ∧
    some (128 : Nat) ≠ some (256 : Nat) := by
  decide

/-- C6 amended: `setFrameSize(n)` immediately replaces the codec's and every
existing channel's frame size; each subsequent `readFrame` reads
`min(frameRemaining, n, bodyRemaining)` bytes, where `frameRemaining` still
counts down the frame in progress under the old size -- so a smaller `n`
takes effect from the very next read while a larger `n` only after the
pending countdown drains.  In particular the S6 scenario holds: with a
500-byte message on channel 3 and one 128-byte frame read, after
`setFrameSize(64)` the subsequent frames are 64 bytes each (the final one
52) until the body completes. -/
theorem C6_setFrameSize_immediate :
    (∀ (s : Codec) (n : Int), (s.setFrameSize n).frameSize = n ∧
      ∀ cid c, s.channels cid = some c →
        (s.setFrameSize n).channels cid = some { c with frameSize := n }) ∧
    (∀ (c : Channel) (st : MStream) (br : Int), c.bodyRemaining = some br →
      min (min c.frameRemaining c.frameSize) br ≤ (st.remaining : Int) →
      frameLenOf (c.readFrame st) = some (min (min c.frameRemaining c.frameSize) br).toNat) ∧
    frameRun 6 (((exCodecMid.setFrameSize 64).channels 3).getD (newChannel 0 0))
        exStream400 = [64, 64, 64, 64, 64, 52] ∧
    (frameRunEnd 6 (((exCodecMid.setFrameSize 64).channels 3).getD (newChannel 0 0))
        exStream400).complete = true := by
  refine ⟨fun s n => ⟨rfl, fun cid c hc => ?_⟩, fun c st br hbr havail => ?_,
    by decide, by decide⟩
  · unfold Codec.setFrameSize
    simp [hc]
  · rw [readFrame_ok c st br hbr havail]
    unfold frameLenOf
    simp only [Option.some.injEq, List.length_take, List.length_drop]
    unfold MStream.remaining at havail
    omega

/-- Witness for C6 (amended) at concrete inputs: `setFrameSize` updates the
frame size of a fresh codec, and a mid-message channel reads
`min(128, 128, 372) = 128` bytes. -/
theorem C6_setFrameSize_immediate_witness :
    (Codec.init.setFrameSize 64).frameSize = 64 ∧
    frameLenOf (exChanMid.readFrame exStream400) = some 128 := by
  refine ⟨(C6_setFrameSize_immediate.1 Codec.init 64).1, ?_⟩
  rw [C6_setFrameSize_immediate.2.1 exChanMid exStream400 372 rfl (by decide)]
  decide

/-- A demuxer step that emits nothing changed at most the accumulator entry
of the frame's own channel. -/
theorem demux_none_bucket (s : Demuxer) (d' : Demuxer)
    (h : ChannelDemuxer.next s = (.ok none, d')) :
    ∃ cid, ∀ k, k ≠ cid → d'.bucket k = s.bucket k := by
  rcases hfr : FrameReader.next s.core with ⟨rr, core'⟩
  unfold ChannelDemuxer.next at h
  rw [hfr] at h
  rcases rr with e | ⟨data, cmp, mh⟩
  · simp at h
  · rcases mh with _ | meta
    · simp at h
    · by_cases hstr : isStreamable meta.datatype
      · simp [hstr] at h
      · by_cases hcmp : cmp
        · simp [hstr, hcmp] at h
        · simp only [Bool.not_eq_true] at hstr hcmp
          subst hcmp
          simp only [hstr, Bool.false_eq_true, if_false] at h
          injection h with hA hB
          subst hB
          exact ⟨meta.channelId, fun k hk => by simp [hk]⟩

/-- C7: whenever the demuxer emits a complete message with its metadata
header, the decoder resolves the stream for `header.streamId` through the
injected factory (exactly one `getStream` call), adds `header.timestamp` to
that stream's running timestamp, leaves other streams alone, and calls the
dispatcher exactly once with that stream, `header.datatype`, the updated
timestamp and the message body. -/
theorem C7_decoder_dispatch (s : Decoder) (data : List Nat) (meta : Header)
    (sid : Nat) (ts : Int)
    (h1 : (ChannelDemuxer.next s.demux).1 = .ok (some (data, meta)))
    (h2 : meta.streamId = some sid) (h3 : meta.timestamp = some ts) :
    (Decoder.next s).1 = .ok () ∧
    (Decoder.next s).2.getStreamCalls = s.getStreamCalls ++ [sid] ∧
    (Decoder.next s).2.streams sid = s.streams sid + ts ∧
    (∀ i, i ≠ sid → (Decoder.next s).2.streams i = s.streams i) ∧
    (Decoder.next s).2.dispatched =
      s.dispatched ++ [(sid, meta.datatype, s.streams sid + ts, data)] := by
  obtain ⟨mcid, mts, mdt, mbl, msid, mrel⟩ := meta
  obtain rfl : msid = some sid := h2
  obtain rfl : mts = some ts := h3
  rcases hdm : ChannelDemuxer.next s.demux with ⟨r, d'⟩
  rw [hdm] at h1
  subst h1
  unfold Decoder.next
  rw [hdm]
  exact ⟨rfl, rfl, by simp, fun i hi => by simp [hi], rfl⟩

/-- C10: on a decoder step in which the demuxer yields no message, the
decoder dispatches nothing, resolves no stream from the factory, changes no
stream timestamp, and the only accumulator entry that may change is the one
for the frame's own channel. -/
theorem C10_no_message_quiescent (s : Decoder)
    (h1 : (ChannelDemuxer.next s.demux).1 = .ok none) :
    (Decoder.next s).1 = .ok () ∧
    (Decoder.next s).2.getStreamCalls = s.getStreamCalls ∧
    (Decoder.next s).2.dispatched = s.dispatched ∧
    (∀ i, (Decoder.next s).2.streams i = s.streams i) ∧
    ∃ cid, ∀ k, k ≠ cid → (Decoder.next s).2.demux.bucket k = s.demux.bucket k := by
  rcases hdm : ChannelDemuxer.next s.demux with ⟨r, d'⟩
  rw [hdm] at h1
  subst h1
  have hmain : Decoder.next s = (.ok (), { s with demux := d' }) := by
    unfold Decoder.next
    rw [hdm]
  rw [hmain]
  exact ⟨rfl, rfl, rfl, fun i => rfl, demux_none_bucket s.demux d' hdm⟩

/-- C8: a frame whose header datatype is streamable is forwarded unchanged
with no buffering; otherwise a completing frame emits the accumulator
spliced with the final frame and clears the accumulator entry, and a
non-completing frame emits nothing and appends the frame to the
accumulator; in all cases accumulators of other channels are untouched. -/
theorem C8_demux_buffering (s : Demuxer) (data : List Nat) (cmp : Bool) (meta : Header)
    (h1 : (FrameReader.next s.core).1 = .ok (data, cmp, some meta)) :
    (isStreamable meta.datatype = true →
      (ChannelDemuxer.next s).1 = .ok (some (data, meta)) ∧
      ∀ k, (ChannelDemuxer.next s).2.bucket k = s.bucket k) ∧
    (isStreamable meta.datatype = false → cmp = true →
      (ChannelDemuxer.next s).1 =
        .ok (some ((s.bucket meta.channelId).getD [] ++ data, meta)) ∧
      (ChannelDemuxer.next s).2.bucket meta.channelId = none ∧
      ∀ k, k ≠ meta.channelId → (ChannelDemuxer.next s).2.bucket k = s.bucket k) ∧
    (isStreamable meta.datatype = false → cmp = false →
      (ChannelDemuxer.next s).1 = .ok none ∧
      (ChannelDemuxer.next s).2.bucket meta.channelId =
        some ((s.bucket meta.channelId).getD [] ++ data) ∧
      ∀ k, k ≠ meta.channelId → (ChannelDemuxer.next s).2.bucket k = s.bucket k) := by
  rcases hfr : FrameReader.next s.core with ⟨rr, core'⟩
  rw [hfr] at h1
  subst h1
  unfold ChannelDemuxer.next
  rw [hfr]
  refine ⟨fun hstr => ?_, fun hstr hcmp => ?_, fun hstr hcmp => ?_⟩
  · simp [hstr]
  · subst hcmp
    simp only [hstr]
    refine ⟨rfl, by simp, fun k hk => by simp [hk]⟩
  · subst hcmp
    simp only [hstr]
    refine ⟨rfl, by simp, fun k hk => by simp [hk]⟩

/-- A decoder whose input stream holds `exMsg5` (a complete 5-byte message
for channel 3, stream 1). -/
def exDec5 : Decoder :=
  { demux := { core := exCodec5, bucket := fun _ => none },
    streams := fun _ => 0, getStreamCalls := [], dispatched := [] }

/-- Witness for C7 at the concrete message `exMsg5`: stream 1 is resolved
once, its timestamp advances by 0 and one dispatch carries the body. -/
theorem C7_decoder_dispatch_witness :
    (Decoder.next exDec5).1 = .ok () ∧
    (Decoder.next exDec5).2.getStreamCalls = exDec5.getStreamCalls ++ [1] ∧
    (Decoder.next exDec5).2.streams 1 = exDec5.streams 1 + 0 ∧
    (∀ i, i ≠ 1 → (Decoder.next exDec5).2.streams i = exDec5.streams i) ∧
    (Decoder.next exDec5).2.dispatched =
      exDec5.dispatched ++ [(1, exHdr5.datatype, exDec5.streams 1 + 0, [1, 2, 3, 4, 5])] :=
  C7_decoder_dispatch exDec5 [1, 2, 3, 4, 5] exHdr5 1 0 (by decide) rfl rfl

/-- A demuxer whose input stream holds `exMsg5`. -/
def exDemux5 : Demuxer := { core := exCodec5, bucket := fun _ => none }

/-- Witness for C8 at the concrete message `exMsg5`: the completing
non-streamable frame is emitted spliced with the (empty) accumulator, the
channel-3 accumulator entry is cleared and channel 4's entry is untouched. -/
theorem C8_demux_buffering_witness :
    (ChannelDemuxer.next exDemux5).1 = .ok (some ([1, 2, 3, 4, 5], exHdr5)) ∧
    (ChannelDemuxer.next exDemux5).2.bucket 3 = none ∧
    (ChannelDemuxer.next exDemux5).2.bucket 4 = exDemux5.bucket 4 := by
  have h := (C8_demux_buffering exDemux5 [1, 2, 3, 4, 5] true exHdr5 (by decide)).2.1
    (by decide) rfl
  exact ⟨h.1, h.2.1, h.2.2 4 (by decide)⟩

/-- An input carrying the header of a 200-byte message for channel 3 plus
only its first 128 body bytes: one frame is read but the message stays
incomplete. -/
def exMsg200 : List Nat :=
  [3, 0, 0, 0, 0, 0, 200, 20, 1, 0, 0, 0] ++ List.replicate 128 5

/-- A decoder whose input stream holds `exMsg200`. -/
def exDec200 : Decoder :=
  { demux := { core := FrameReader.push Codec.init exMsg200, bucket := fun _ => none },
    streams := fun _ => 0, getStreamCalls := [], dispatched := [] }

/-- Witness for C10 at the concrete partial message `exMsg200`. -/
theorem C10_no_message_quiescent_witness :
    (Decoder.next exDec200).1 = .ok () ∧
    (Decoder.next exDec200).2.getStreamCalls = exDec200.getStreamCalls ∧
    (Decoder.next exDec200).2.dispatched = exDec200.dispatched ∧
    (∀ i, (Decoder.next exDec200).2.streams i = exDec200.streams i) ∧
    ∃ cid, ∀ k, k ≠ cid →
      (Decoder.next exDec200).2.demux.bucket k = exDec200.demux.bucket k :=
  C10_no_message_quiescent exDec200 (by decide)

/-- Apply `Encoder.send` with a one-byte body `n` times (the runs below
never hit the error branch). -/
def sendN : Nat → Encoder → Encoder
  | 0, e => e
  | n + 1, e =>
    match e.send [0] 20 1 0 with
    | .ok e' => sendN n e'
    | .error _ => e

/-- The fresh encoder after one `send` of the 3-byte body `[1, 2, 3]` for
stream 1, datatype `0x14`, timestamp 0. -/
def exEnc1 : Encoder :=
  match Encoder.init.send [1, 2, 3] 20 1 0 with
  | .ok e => e
  | .error _ => Encoder.init

/-- The encoder after 61 delegated sends (pool saturated) and one more
`send`, which must therefore be enqueued into `pending`. -/
def exEncFullPending : Encoder :=
  match (sendN 61 Encoder.init).send [9] 18 7 5 with
  | .ok e => e
  | .error _ => Encoder.init

/-- Project the pending queue out of a `send` result. -/
def encPendingOf (r : Except PyErr Encoder) : Option (List (Nat × Nat × Int × List Nat)) :=
  match r with
  | .ok e => some e.pending
  | .error _ => none

/-- C9 (code bug): the sending half behaves as claimed -- a fresh encoder's
`send` delegates to the muxer, which acquires channel 3 and applies the
message's absolute header, leaving `pending` empty; after 61 sends the pool
is full (`isFull`) and a further `send` enqueues
`(streamId, datatype, timestamp, body)` into `pending`.  But no pump cycle
can ever run: `Encoder.next` first calls `ChannelMuxer.next`, whose loop
body invokes `self.writeHeader(channel)` and `channel.writeFrame()`, neither
of which is defined anywhere in the repository, so with any channel active
the pump raises `AttributeError` (and the pending drain it would then reach
calls `ChannelMuxer.send(*self.pending.pop(0))` without an instance argument
and with the stored tuple in the wrong order for
`send(self, data, datatype, streamId, timestamp)`, a `TypeError`).  A
pending entry can therefore never become active. -/
theorem C9_pump_crashes :
    errOf (Encoder.init.send [1, 2, 3] 20 1 0) = none ∧
    exEnc1.pending = [] ∧
    exEnc1.mux.activeChannels = [3] ∧
    ((exEnc1.mux.core.channels 3).getD (newChannel 0 0)).header =
      some { channelId := 3, timestamp := some 0, datatype := some 20,
             bodyLength := some 3, streamId := some 1, relative := false } ∧
    errOf exEnc1.enext = some .attributeError ∧
    (sendN 61 Encoder.init).mux.isFull = true ∧
    errOf ((sendN 61 Encoder.init).send [9] 18 7 5) = none ∧
    exEncFullPending.pending = [(7, 18, 5, [9])] ∧
    errOf exEncFullPending.enext = some .attributeError := by
  decide

end Rtmp
